import Mathlib

/-!
Verification of the `config_updater` crate (`src/lib.rs`).

The crate exposes `ConfigMonitor<T>`: construction synchronously loads and
decodes a JSON file into `T` behind an `Arc<Mutex<T>>`, and `monitor()`
spawns a background task that polls the file's modification timestamp and,
on a change, re-decodes the file and replaces the stored value.  Every
fallible filesystem or decode step in the source is an `unwrap()`: a
failure aborts the calling context (construction, or the spawned task).

Shallow embedding choices:
* the monitored file at one instant is a `FileState`: optional byte
  content (`none` = `File::open`/read failure) and an optional raw
  modification instant in seconds relative to `UNIX_EPOCH` (`none` =
  open/metadata/`modified()` failure; a negative value makes
  `duration_since(UNIX_EPOCH)` fail);
* JSON decoding into `T` is an opaque `decode : B → Option T`;
* an `unwrap()` panic is an `Except.error`;
* the spawned polling loop is a step function `monitorStep` on a
  `SysState`: the store slot's current value plus the task's private
  `lastSeen` timestamp, with `watcher = none` once the task has died.
  `monitorRun` iterates it against a time-indexed file environment.
-/

namespace ConfigUpdater

/-- Failure kinds of the crate's fallible primitives: `IOError` for
`File::open`/`metadata`/`modified` failures, `DecodeError` for
`serde_json::from_reader` failures, `ClockError` for
`duration_since(UNIX_EPOCH)` failing on a pre-epoch timestamp. -/
inductive FileErr where
  | IOError
  | DecodeError
  | ClockError
deriving DecidableEq, Repr

instance exceptDecEq {ε α : Type} [DecidableEq ε] [DecidableEq α] :
    DecidableEq (Except ε α) := fun x y =>
  match x, y with
  | .error a, .error b => decidable_of_iff (a = b) (by simp)
  | .error _, .ok _ => isFalse (by simp)
  | .ok _, .error _ => isFalse (by simp)
  | .ok a, .ok b => decidable_of_iff (a = b) (by simp)

/-- The monitored file as the filesystem presents it at one instant:
its readable content (if any) and its raw modification time in whole
seconds relative to `UNIX_EPOCH` (if metadata is available). -/
structure FileState (B : Type) where
  contents : Option B
  modified : Option Int
deriving DecidableEq, Repr

/-- `ConfigMonitor::load_file`: open the file, read it, decode with
`serde_json::from_reader`.  Each `unwrap()` of the source becomes an
error: missing/unreadable file is `IOError`, a decode failure is
`DecodeError`. -/
def load_file {B T : Type} (decode : B → Option T) (fs : FileState B) :
    Except FileErr T :=
  match fs.contents with
  | none => .error .IOError
  | some bytes =>
    match decode bytes with
    | none => .error .DecodeError
    | some v => .ok v

/-- `ConfigMonitor::file_last_modified`: open the file, take
`metadata().modified().duration_since(UNIX_EPOCH).as_secs()`.  A
missing file or unavailable metadata is `IOError`; a modification time
before the epoch makes `duration_since` fail, `ClockError`. -/
def file_last_modified {B : Type} (fs : FileState B) : Except FileErr Nat :=
  match fs.modified with
  | none => .error .IOError
  | some t => if t < 0 then .error .ClockError else .ok t.toNat

/-- The `ConfigMonitor<T>` struct: file name, poll interval in seconds,
and the store slot.  The `Arc<Mutex<T>>` is modelled by the value it
currently guards; the `data()` accessor, which clones the `Arc`, is the
`data` projection. -/
structure ConfigMonitor (T : Type) where
  filename : String
  recheck_delay_seconds : Nat
  data : T
deriving DecidableEq, Repr

/-- `ConfigMonitor::new`: synchronously run `load_file` on the file as it
is at construction time; on success build the monitor with the decoded
value in the store, defaulting the poll interval to 300 seconds; the
`unwrap()`s inside `load_file` make any failure abort construction. -/
def ConfigMonitor.new {B T : Type} (decode : B → Option T) (filename : String)
    (recheck_delay_seconds : Option Nat) (fs : FileState B) :
    Except FileErr (ConfigMonitor T) :=
  (load_file decode fs).map fun data =>
    { filename := filename
      recheck_delay_seconds := recheck_delay_seconds.getD 300
      data := data }

/-- The observable state of the system once the background task has been
spawned: the store slot's current value, and the task's private
last-seen timestamp, or `none` once the task has terminated. -/
structure SysState (T : Type) where
  store : T
  watcher : Option Nat
deriving DecidableEq, Repr

/-- `ConfigMonitor::monitor`: spawning the task first reads
`file_last_modified()` (inside the spawned task, against the file as it
is at spawn time) to seed the private `file_last_modified` variable; if
that read fails the task dies at once, leaving the store untouched. -/
def ConfigMonitor.monitor {B T : Type} (m : ConfigMonitor T)
    (fs : FileState B) : SysState T :=
  match file_last_modified fs with
  | .error _ => { store := m.data, watcher := none }
  | .ok t => { store := m.data, watcher := some t }

/-- One iteration of the spawned loop, against the file as it is at this
poll instant.  Returns the next state and whether this iteration invoked
the loader (`load_file`).  A dead task does nothing.  Otherwise: read
the timestamp (failure kills the task); if it differs from the last-seen
one, record it, reload and replace the store (a decode/IO failure inside
`load_file` kills the task, leaving the store as it was). -/
def monitorStep {B T : Type} (decode : B → Option T) (fs : FileState B)
    (s : SysState T) : SysState T × Bool :=
  match s.watcher with
  | none => (s, false)
  | some last_modified_seen =>
    match file_last_modified fs with
    | .error _ => ({ s with watcher := none }, false)
    | .ok file_recent_modified =>
      if last_modified_seen = file_recent_modified then (s, false)
      else
        match load_file decode fs with
        | .error _ => ({ s with watcher := none }, true)
        | .ok data => ({ store := data, watcher := some file_recent_modified }, true)

/-- Iterate the loop `n` times from state `s0`, with `env i` the file as
it is at the `i`-th poll instant. -/
def monitorRun {B T : Type} (decode : B → Option T) (env : Nat → FileState B)
    (s0 : SysState T) : Nat → SysState T
  | 0 => s0
  | n + 1 => (monitorStep decode (env n) (monitorRun decode env s0 n)).1

/-- A concrete decoder for witnesses: bytes are a `Nat`, values below 100
decode to themselves, anything else is malformed. -/
def decodeNat : Nat → Option Nat :=
  fun bytes => if bytes < 100 then some bytes else none

/-! ### Helper lemmas -/

/-- A dead task's iteration is a no-op and does not invoke the loader. -/
theorem monitorStep_of_terminated {B T : Type} (decode : B → Option T)
    (fs : FileState B) (s : SysState T) (h : s.watcher = none) :
    monitorStep decode fs s = (s, false) := by
  simp [monitorStep, h]

/-- An iteration at an unchanged timestamp is a no-op and does not
invoke the loader. -/
theorem monitorStep_of_same {B T : Type} (decode : B → Option T)
    (fs : FileState B) (s : SysState T) (t0 : Nat)
    (hw : s.watcher = some t0) (ht : file_last_modified fs = .ok t0) :
    monitorStep decode fs s = (s, false) := by
  simp [monitorStep, hw, ht]

/-- While every polled timestamp equals the initial last-seen one, the
whole state is unchanged. -/
theorem monitorRun_of_same {B T : Type} (decode : B → Option T)
    (env : Nat → FileState B) (s0 : SysState T) (t0 : Nat)
    (hw : s0.watcher = some t0) (n : Nat)
    (hsame : ∀ i, i < n → file_last_modified (env i) = .ok t0) :
    monitorRun decode env s0 n = s0 := by
  induction n with
  | zero => rfl
  | succ n ih =>
    have hprev : monitorRun decode env s0 n = s0 :=
      ih fun i hi => hsame i (Nat.lt_succ_of_lt hi)
    have hstep : monitorStep decode (env n) (monitorRun decode env s0 n)
        = (monitorRun decode env s0 n, false) := by
      apply monitorStep_of_same decode (env n) _ t0
      · rw [hprev, hw]
      · exact hsame n (Nat.lt_succ_self n)
    show (monitorStep decode (env n) (monitorRun decode env s0 n)).1 = s0
    rw [hstep, hprev]

/-- Once the run reaches a dead-task state, every later state is that
same state. -/
theorem monitorRun_of_terminated {B T : Type} (decode : B → Option T)
    (env : Nat → FileState B) (s0 : SysState T) (n : Nat)
    (h : (monitorRun decode env s0 n).watcher = none) (k : Nat) :
    monitorRun decode env s0 (n + k) = monitorRun decode env s0 n := by
  induction k with
  | zero => rfl
  | succ k ih =>
    have : monitorStep decode (env (n + k)) (monitorRun decode env s0 (n + k))
        = (monitorRun decode env s0 (n + k), false) := by
      apply monitorStep_of_terminated
      rw [ih, h]
    show (monitorStep decode (env (n + k)) (monitorRun decode env s0 (n + k))).1
        = monitorRun decode env s0 n
    rw [this, ih]

/-! ### Claims -/

/-- C1: for every file whose contents decode successfully into `T`, the
value held by the store returned by `data()` immediately after
`ConfigMonitor::new` returns equals the decode of the file's contents at
the instant of construction. -/
theorem c1_data_after_new_is_decode {B T : Type} (decode : B → Option T)
    (filename : String) (recheck_delay_seconds : Option Nat)
    (fs : FileState B) (bytes : B) (v : T)
    (hc : fs.contents = some bytes) (hd : decode bytes = some v) :
    ∃ m : ConfigMonitor T,
      ConfigMonitor.new decode filename recheck_delay_seconds fs = .ok m ∧
      m.data = v := by
  refine ⟨{ filename := filename,
            recheck_delay_seconds := recheck_delay_seconds.getD 300,
            data := v }, ?_, rfl⟩
  simp [ConfigMonitor.new, load_file, hc, hd, Except.map]

theorem c1_witness : ∃ m : ConfigMonitor Nat,
    ConfigMonitor.new decodeNat "config.json" none
      { contents := some 1, modified := some 0 } = .ok m ∧ m.data = 1 :=
  c1_data_after_new_is_decode decodeNat "config.json" none
    { contents := some 1, modified := some 0 } 1 1 rfl (by decide)

/-- C2: if, after the watcher has started, the file's modification
timestamp at poll instant `n` differs from the task's last-seen one and
the file's content there decodes successfully, then after that poll
iteration the store holds the decode of the new content. -/
theorem c2_reload_on_timestamp_change {B T : Type} (decode : B → Option T)
    (env : Nat → FileState B) (s0 : SysState T) (n last cur : Nat)
    (bytes : B) (v : T)
    (hw : (monitorRun decode env s0 n).watcher = some last)
    (ht : file_last_modified (env n) = .ok cur)
    (hne : last ≠ cur)
    (hc : (env n).contents = some bytes)
    (hd : decode bytes = some v) :
    (monitorRun decode env s0 (n + 1)).store = v := by
  have hstep : monitorStep decode (env n) (monitorRun decode env s0 n)
      = ({ store := v, watcher := some cur }, true) := by
    simp [monitorStep, hw, ht, hne, load_file, hc, hd]
  show (monitorStep decode (env n) (monitorRun decode env s0 n)).1.store = v
  rw [hstep]

theorem c2_witness :
    (monitorRun decodeNat
      (fun _ => { contents := some 2, modified := some 5 })
      { store := 1, watcher := some 0 } 1).store = 2 :=
  c2_reload_on_timestamp_change decodeNat
    (fun _ => { contents := some 2, modified := some 5 })
    { store := 1, watcher := some 0 } 0 0 5 2 2 rfl (by decide) (by decide)
    rfl (by decide)

/-- C3: over any sequence of poll iterations in which the timestamp read
at each iteration equals the last-seen one, the watcher never invokes
the loader and the stored value (indeed the whole state) never changes,
for any number of polls and any byte contents of the file. -/
theorem c3_no_timestamp_change_no_reload {B T : Type}
    (decode : B → Option T) (env : Nat → FileState B) (s0 : SysState T)
    (t0 n : Nat) (hw : s0.watcher = some t0)
    (hsame : ∀ i, i < n → file_last_modified (env i) = .ok t0) :
    monitorRun decode env s0 n = s0 ∧
    ∀ i, i < n →
      (monitorStep decode (env i) (monitorRun decode env s0 i)).2 = false := by
  refine ⟨monitorRun_of_same decode env s0 t0 hw n hsame, fun i hi => ?_⟩
  have hprev : monitorRun decode env s0 i = s0 :=
    monitorRun_of_same decode env s0 t0 hw i
      fun j hj => hsame j (hj.trans hi)
  have : monitorStep decode (env i) (monitorRun decode env s0 i)
      = (monitorRun decode env s0 i, false) := by
    apply monitorStep_of_same decode (env i) _ t0
    · rw [hprev, hw]
    · exact hsame i hi
  rw [this]

theorem c3_witness :
    monitorRun decodeNat
      (fun i => { contents := some (i + 7), modified := some 0 })
      { store := 1, watcher := some 0 } 2 = { store := 1, watcher := some 0 } ∧
    ∀ i, i < 2 →
      (monitorStep decodeNat
        ((fun i => ({ contents := some (i + 7), modified := some 0 } :
          FileState Nat)) i)
        (monitorRun decodeNat
          (fun i => { contents := some (i + 7), modified := some 0 })
          { store := 1, watcher := some 0 } i)).2 = false :=
  c3_no_timestamp_change_no_reload decodeNat
    (fun i => { contents := some (i + 7), modified := some 0 })
    { store := 1, watcher := some 0 } 0 2 rfl (by decide)

/-- C4 as stated is false: `ConfigMonitor::new` captures no timestamp at
all, so a timestamp change between construction and the start of
monitoring is not detected.  Concrete run: the file has timestamp 0 and
content 1 at construction; before the task spawns it changes to
timestamp 5 with content 2 (which decodes fine); after three poll
iterations the store still holds 1 and the task idles at last-seen 5 —
no reload was ever triggered. -/
theorem c4_counterexample :
    decodeNat 2 = some 2 ∧ (1 : Nat) ≠ 2 ∧
    (ConfigMonitor.new decodeNat "config.json" none
      ({ contents := some 1, modified := some 0 } : FileState Nat)).map
      (fun m => monitorRun decodeNat
        (fun _ => { contents := some 2, modified := some 5 })
        (m.monitor { contents := some 2, modified := some 5 }) 3)
      = .ok { store := 1, watcher := some 5 } := by
  refine ⟨by decide, by decide, ?_⟩
  rfl

/-- C4 amended: construction runs the loader synchronously once to
populate the store, but the initial last-seen timestamp is captured by
the watcher task itself when it starts, from the file as it is at spawn
time; consequently a timestamp change between construction and the start
of monitoring is not detected: as long as later polls keep seeing the
spawn-time timestamp, no reload happens and the store keeps the
construction-time value. -/
theorem c4_amended_spawn_seeds_timestamp {B T : Type}
    (decode : B → Option T) (filename : String)
    (recheck_delay_seconds : Option Nat) (fs0 fsSpawn : FileState B)
    (m : ConfigMonitor T) (t1 : Nat) (env : Nat → FileState B) (n : Nat)
    (hm : ConfigMonitor.new decode filename recheck_delay_seconds fs0 = .ok m)
    (ht : file_last_modified fsSpawn = .ok t1)
    (hsame : ∀ i, i < n → file_last_modified (env i) = .ok t1) :
    m.monitor fsSpawn = { store := m.data, watcher := some t1 } ∧
    monitorRun decode env (m.monitor fsSpawn) n
      = { store := m.data, watcher := some t1 } := by
  have hmon : m.monitor fsSpawn = { store := m.data, watcher := some t1 } := by
    simp [ConfigMonitor.monitor, ht]
  refine ⟨hmon, ?_⟩
  rw [hmon]
  exact monitorRun_of_same decode env _ t1 rfl n hsame

theorem c4_witness :
    (⟨"config.json", 300, 1⟩ : ConfigMonitor Nat).monitor
      ({ contents := some 2, modified := some 5 } : FileState Nat)
      = { store := 1, watcher := some 5 } ∧
    monitorRun decodeNat
      (fun _ => { contents := some 2, modified := some 5 })
      ((⟨"config.json", 300, 1⟩ : ConfigMonitor Nat).monitor
        ({ contents := some 2, modified := some 5 } : FileState Nat)) 3
      = { store := 1, watcher := some 5 } := by
  exact c4_amended_spawn_seeds_timestamp decodeNat "config.json" none
    { contents := some 1, modified := some 0 }
    { contents := some 2, modified := some 5 }
    ⟨"config.json", 300, 1⟩ 5
    (fun _ => { contents := some 2, modified := some 5 }) 3
    rfl (by decide) (by decide)

/-- C5: if at construction time the file is missing/unreadable or its
content fails to decode into `T`, `ConfigMonitor::new` fails and no
monitor (hence no handle to any value) is produced. -/
theorem c5_construction_failure {B T : Type} (decode : B → Option T)
    (filename : String) (recheck_delay_seconds : Option Nat)
    (fs : FileState B)
    (h : fs.contents = none ∨
      ∃ bytes, fs.contents = some bytes ∧ decode bytes = none) :
    ∃ e, ConfigMonitor.new decode filename recheck_delay_seconds fs
      = .error e := by
  rcases h with hc | ⟨bytes, hc, hd⟩
  · exact ⟨.IOError, by simp [ConfigMonitor.new, load_file, hc, Except.map]⟩
  · exact ⟨.DecodeError,
      by simp [ConfigMonitor.new, load_file, hc, hd, Except.map]⟩

theorem c5_witness :
    ∃ e, ConfigMonitor.new decodeNat "config.json" none
      ({ contents := some 200, modified := some 0 } : FileState Nat)
      = .error e :=
  c5_construction_failure decodeNat "config.json" none
    { contents := some 200, modified := some 0 }
    (Or.inr ⟨200, rfl, by decide⟩)

/-- C6: if at poll instant `n` the timestamp has changed but the file's
content fails to decode, the task terminates: at every later instant the
task is dead, the store keeps the value it had before the failing
iteration, and the loader is never invoked again, whatever the file does
afterwards. -/
theorem c6_decode_failure_stops_watcher {B T : Type} (decode : B → Option T)
    (env : Nat → FileState B) (s0 : SysState T) (n last cur : Nat)
    (bytes : B)
    (hw : (monitorRun decode env s0 n).watcher = some last)
    (ht : file_last_modified (env n) = .ok cur)
    (hne : last ≠ cur)
    (hc : (env n).contents = some bytes)
    (hd : decode bytes = none) :
    ∀ k, monitorRun decode env s0 (n + 1 + k)
        = { store := (monitorRun decode env s0 n).store, watcher := none } ∧
      (monitorStep decode (env (n + 1 + k))
        (monitorRun decode env s0 (n + 1 + k))).2 = false := by
  have hstep : monitorStep decode (env n) (monitorRun decode env s0 n)
      = ({ store := (monitorRun decode env s0 n).store, watcher := none },
        true) := by
    simp [monitorStep, hw, ht, hne, load_file, hc, hd]
  have h1 : monitorRun decode env s0 (n + 1)
      = { store := (monitorRun decode env s0 n).store, watcher := none } := by
    show (monitorStep decode (env n) (monitorRun decode env s0 n)).1 = _
    rw [hstep]
  intro k
  have hterm : (monitorRun decode env s0 (n + 1)).watcher = none := by
    rw [h1]
  have h2 := monitorRun_of_terminated decode env s0 (n + 1) hterm k
  refine ⟨by rw [h2, h1], ?_⟩
  have hnoop := monitorStep_of_terminated decode (env (n + 1 + k))
    (monitorRun decode env s0 (n + 1 + k)) (by rw [h2, hterm])
  rw [hnoop]

/-- File environment for the C6 witness: at instant 0 the timestamp has
moved to 5 but the content 200 is malformed; afterwards the file holds
valid content 3 at a fresh timestamp 9, which must nevertheless never be
loaded. -/
def c6env : Nat → FileState Nat := fun i =>
  if i = 0 then { contents := some 200, modified := some 5 }
  else { contents := some 3, modified := some 9 }

theorem c6_witness :
    monitorRun decodeNat c6env { store := 1, watcher := some 0 } 3
      = { store := 1, watcher := none } ∧
    (monitorStep decodeNat (c6env 3)
      (monitorRun decodeNat c6env { store := 1, watcher := some 0 } 3)).2
      = false := by
  exact c6_decode_failure_stops_watcher decodeNat c6env
    { store := 1, watcher := some 0 } 0 0 5 200
    rfl (by decide) (by decide) rfl (by decide) 2

/-- C7: if at poll instant `n` the modification-timestamp read fails —
the file cannot be opened or its metadata is unavailable (`IOError`), or
its modification time predates the epoch (`ClockError`) — the task
terminates: at every later instant the task is dead, the store keeps its
current value, and the loader is never invoked, with no retry of any
kind. -/
theorem c7_timestamp_read_failure_stops_watcher {B T : Type}
    (decode : B → Option T) (env : Nat → FileState B) (s0 : SysState T)
    (n last : Nat)
    (hw : (monitorRun decode env s0 n).watcher = some last)
    (hfail : (env n).modified = none ∨
      ∃ t, (env n).modified = some t ∧ t < 0) :
    ∀ k, monitorRun decode env s0 (n + 1 + k)
        = { store := (monitorRun decode env s0 n).store, watcher := none } ∧
      (monitorStep decode (env (n + 1 + k))
        (monitorRun decode env s0 (n + 1 + k))).2 = false := by
  have ht : ∃ e, file_last_modified (env n) = .error e := by
    rcases hfail with h | ⟨t, h, hlt⟩
    · exact ⟨.IOError, by simp [file_last_modified, h]⟩
    · exact ⟨.ClockError, by simp [file_last_modified, h, hlt]⟩
  obtain ⟨e, ht⟩ := ht
  have hstep : monitorStep decode (env n) (monitorRun decode env s0 n)
      = ({ store := (monitorRun decode env s0 n).store, watcher := none },
        false) := by
    simp [monitorStep, hw, ht]
  have h1 : monitorRun decode env s0 (n + 1)
      = { store := (monitorRun decode env s0 n).store, watcher := none } := by
    show (monitorStep decode (env n) (monitorRun decode env s0 n)).1 = _
    rw [hstep]
  intro k
  have hterm : (monitorRun decode env s0 (n + 1)).watcher = none := by
    rw [h1]
  have h2 := monitorRun_of_terminated decode env s0 (n + 1) hterm k
  refine ⟨by rw [h2, h1], ?_⟩
  have hnoop := monitorStep_of_terminated decode (env (n + 1 + k))
    (monitorRun decode env s0 (n + 1 + k)) (by rw [h2, hterm])
  rw [hnoop]

/-- File environment for the C7 witness: at instant 0 the timestamp read
fails (metadata unavailable); afterwards the file is perfectly healthy
with content 3 at timestamp 9, yet no reload may ever happen. -/
def c7env : Nat → FileState Nat := fun i =>
  if i = 0 then { contents := some 2, modified := none }
  else { contents := some 3, modified := some 9 }

theorem c7_witness :
    monitorRun decodeNat c7env { store := 1, watcher := some 0 } 2
      = { store := 1, watcher := none } ∧
    (monitorStep decodeNat (c7env 2)
      (monitorRun decodeNat c7env { store := 1, watcher := some 0 } 2)).2
      = false := by
  exact c7_timestamp_read_failure_stops_watcher decodeNat c7env
    { store := 1, watcher := some 0 } 0 0 rfl (Or.inl rfl) 1

/-- C8: whenever construction succeeds, passing `none` for the poll
interval yields a monitor whose `recheck_delay_seconds` is exactly 300,
and passing `some n` yields exactly `n`. -/
theorem c8_recheck_delay {B T : Type} (decode : B → Option T)
    (filename : String) (fs : FileState B) (v : T)
    (hload : load_file decode fs = .ok v) :
    (ConfigMonitor.new decode filename none fs).map
      (fun m => m.recheck_delay_seconds) = .ok 300 ∧
    ∀ n : Nat, (ConfigMonitor.new decode filename (some n) fs).map
      (fun m => m.recheck_delay_seconds) = .ok n := by
  constructor
  · simp [ConfigMonitor.new, hload, Except.map]
  · intro n
    simp [ConfigMonitor.new, hload, Except.map]

theorem c8_witness :
    (ConfigMonitor.new decodeNat "config.json" none
      ({ contents := some 1, modified := some 0 } : FileState Nat)).map
      (fun m => m.recheck_delay_seconds) = .ok 300 ∧
    ∀ n : Nat, (ConfigMonitor.new decodeNat "config.json" (some n)
      ({ contents := some 1, modified := some 0 } : FileState Nat)).map
      (fun m => m.recheck_delay_seconds) = .ok n :=
  c8_recheck_delay decodeNat "config.json"
    { contents := some 1, modified := some 0 } 1 (by decide)

end ConfigUpdater
